import Mathlib

/-
Shallow embedding of src/blocks/iwd/mod.rs: a link-state watcher block.
A background subscriber thread caches the watched wifi device's state and
connected-network object path in a shared record (IWDPrivate) guarded by a
mutex, and notifies the scheduler on each parsed property-change signal;
the renderer (IWD::update) reads the record and resolves the network object
to a display name via a bus call; the click handler issues a disconnect
command.  External collaborators (the D-Bus library, the scheduler, the
widget framework) appear only at their interface boundary: the
name-resolution call is a parameter, panics from unwrap are modelled as
Option.none, and the stream of bus items is a list.
-/

namespace Iwd

/-- Severity levels of the bar framework's widget::State. -/
inductive State where
  | Idle
  | Info
  | Good
  | Warning
  | Critical
deriving DecidableEq, Repr

/-- Constant STATE_CONNECTED (mod.rs line 27). -/
def STATE_CONNECTED : String := "connected"

/-- Constant STATE_DISCONNECTED (mod.rs line 28). -/
def STATE_DISCONNECTED : String := "disconnected"

/-- Constant STATE_DISCONNECTING (mod.rs line 29). -/
def STATE_DISCONNECTING : String := "disconnecting"

/-- Constant CHANGE_NETWORK (mod.rs line 31). -/
def CHANGE_NETWORK : String := "ConnectedNetwork"

/-- Constant CHANGE_STATE (mod.rs line 32). -/
def CHANGE_STATE : String := "State"

/-- get_widget_state (mod.rs lines 36-42): match on the state string, in
source order: "disconnected", then "connected", then the catch-all arm. -/
def get_widget_state (state : String) : State :=
  if state = STATE_DISCONNECTED then State.Critical
  else if state = STATE_CONNECTED then State.Good
  else State.Warning

/-- A D-Bus variant payload as observed through arg::RefArg::as_str:
either a value with a string representation, or a value of any other type. -/
inductive Variant where
  | str (s : String)
  | other
deriving DecidableEq, Repr

/-- RefArg::as_str: some string for string-like variants, none otherwise. -/
def Variant.as_str : Variant → Option String
  | Variant.str s => some s
  | Variant.other => none

/-- The shared record IWDPrivate (mod.rs lines 54-58). -/
structure IWDPrivate where
  network_obj : String
  state : String
deriving DecidableEq, Repr

/-- Default::default() for IWDPrivate (mod.rs line 77): both String fields
default to the empty string. -/
def IWDPrivate.default : IWDPrivate := { network_obj := "", state := "" }

/-- changed_properties of a PropertiesPropertiesChanged signal, modelled as
an association list; HashMap::get is first-match lookup. -/
def getProp (props : List (String × Variant)) (k : String) : Option Variant :=
  (props.find? (fun p => p.1 == k)).map Prod.snd

/-- Handling of the ConnectedNetwork entry in the subscriber loop
(mod.rs lines 107-109): when present, new_obj.as_str().unwrap() is written
to network_obj; a failed as_str means the unwrap panics, modelled as none. -/
def applyNetwork (st : IWDPrivate) (props : List (String × Variant)) :
    Option IWDPrivate :=
  match getProp props CHANGE_NETWORK with
  | none => some st
  | some v =>
    match v.as_str with
    | none => none
    | some s => some { st with network_obj := s }

/-- Handling of the State entry in the subscriber loop (mod.rs lines
110-112), same shape as applyNetwork. -/
def applyState (st : IWDPrivate) (props : List (String × Variant)) :
    Option IWDPrivate :=
  match getProp props CHANGE_STATE with
  | none => some st
  | some v =>
    match v.as_str with
    | none => none
    | some s => some { st with state := s }

/-- Processing of one parsed property-change signal (mod.rs lines 106-112):
the ConnectedNetwork entry is applied first, then the State entry. -/
def processSignal (st : IWDPrivate) (props : List (String × Variant)) :
    Option IWDPrivate :=
  match applyNetwork st props with
  | none => none
  | some st1 => applyState st1 props

/-- One item delivered by the bus iterator (mod.rs lines 104-105): a signal
message together with the result of PropsChanged::from_message, or a
non-signal connection item. -/
inductive BusItem where
  | signal (parsed : Option (List (String × Variant)))
  | nonSignal
deriving DecidableEq, Repr

/-- One iteration of the subscriber loop body (mod.rs lines 104-117):
returns the shared record afterwards and the number of Task refresh messages
sent to the scheduler for this item; none models a panic from unwrap on an
unexpected payload type, which kills the subscriber thread. -/
def processItem (st : IWDPrivate) (ci : BusItem) : Option (IWDPrivate × Nat) :=
  match ci with
  | BusItem.nonSignal => some (st, 0)
  | BusItem.signal none => some (st, 0)
  | BusItem.signal (some props) =>
    match processSignal st props with
    | none => none
    | some st2 => some (st2, 1)

/-- The subscriber folded over a sequence of parsed property-change
signals. -/
def processSignals (st : IWDPrivate) :
    List (List (String × Variant)) → Option IWDPrivate
  | [] => some st
  | props :: rest =>
    match processSignal st props with
    | none => none
    | some st1 => processSignals st1 rest

/-- A signal's entry for key k, when present, has a string-typed value. -/
def propOkAt (props : List (String × Variant)) (k : String) : Bool :=
  match getProp props k with
  | none => true
  | some v => (Variant.as_str v).isSome

/-- Both entries of interest, when present, have string-typed values, so
processing the signal does not panic. -/
def sigOk (props : List (String × Variant)) : Bool :=
  propOkAt props CHANGE_NETWORK && propOkAt props CHANGE_STATE

/-- The string value a signal delivers for key k, if any. -/
def sigVal (props : List (String × Variant)) (k : String) : Option String :=
  (getProp props k).bind Variant.as_str

/-- The last value delivered for key k across a sequence of signals. -/
def lastDelivered (k : String) :
    List (List (String × Variant)) → Option String
  | [] => none
  | props :: rest =>
    match lastDelivered k rest with
    | some s => some s
    | none => sigVal props k

/-- The text computed by IWD::update for the set_text call (mod.rs lines
150-158): match arms in source order are STATE_DISCONNECTED,
STATE_DISCONNECTING, and the catch-all arm that issues
NetConnmanIwdNetwork::get_name against network_obj and unwraps it.  The
external bus call is the parameter get_name; none models a failed call,
whose unwrap panics the render pass. -/
def renderText (cur : IWDPrivate) (disconnected_str : String)
    (get_name : String → Option String) : Option String :=
  if cur.state = STATE_DISCONNECTED then some disconnected_str
  else if cur.state = STATE_DISCONNECTING then some disconnected_str
  else get_name cur.network_obj

/-- IWD::update (mod.rs lines 145-160): sets the widget severity from
get_widget_state, sets the text from renderText, and returns Ok(None).
The result is (text, widget severity, returned refresh interval); none
models the panic of an unwrapped failed name resolution. -/
def update (cur : IWDPrivate) (disconnected_str : String)
    (get_name : String → Option String) :
    Option (String × State × Option Nat) :=
  match renderText cur disconnected_str get_name with
  | none => none
  | some t => some (t, get_widget_state cur.state, none)

/-- Events of the render path relevant to lock discipline. -/
inductive RenderEvent where
  | lockAcquire
  | busCall (path : String)
  | lockRelease
deriving DecidableEq, Repr

/-- The lock/bus-call event trace of IWD::update (mod.rs lines 145-160).
Line 147 binds the MutexGuard through a borrow
(let cur_state = ref mut deref of self.cur_state.lock().unwrap()), so the
temporary guard's lifetime is extended to the end of the function: the lock
is acquired first and released only after set_text; the get_name bus call
of lines 153-157 happens in between whenever neither of the two placeholder
match arms is taken. -/
def updateTrace (cur : IWDPrivate) : List RenderEvent :=
  [RenderEvent.lockAcquire] ++
    (if cur.state = STATE_DISCONNECTED then []
     else if cur.state = STATE_DISCONNECTING then []
     else [RenderEvent.busCall cur.network_obj]) ++
    [RenderEvent.lockRelease]

/-- Whether a bus call in the trace happens while the lock is held; the
Bool argument is whether the lock is held before the trace starts. -/
def lockHeldAcrossBusCall : List RenderEvent → Bool → Bool
  | [], _ => false
  | RenderEvent.lockAcquire :: tr, _ => lockHeldAcrossBusCall tr true
  | RenderEvent.lockRelease :: tr, _ => lockHeldAcrossBusCall tr false
  | RenderEvent.busCall _ :: tr, held => held || lockHeldAcrossBusCall tr held

/-- The fields of the IWD block record consulted by the click handler and
the view (mod.rs lines 44-52): disconnect is whether the optional
disconnect ButtonWidget was configured (show_disconnect_btn). -/
structure IWDBlock where
  device_id : String
  disconnect : Bool
deriving DecidableEq, Repr

/-- IWD::click (mod.rs lines 162-172): the device paths against which a
disconnect command is issued while handling one event whose name field is
event_name.  The source matches only on the event name; the configured
disconnect button is not consulted. -/
def click (blk : IWDBlock) (event_name : Option String) : List String :=
  match event_name with
  | none => []
  | some name => if name = "disconnect" then [blk.device_id] else []

end Iwd

namespace Iwd

theorem applyNetwork_eq (st : IWDPrivate) (props : List (String × Variant))
    (h : propOkAt props CHANGE_NETWORK = true) :
    applyNetwork st props =
      some { st with
             network_obj := (sigVal props CHANGE_NETWORK).getD st.network_obj } := by
  unfold propOkAt at h
  unfold applyNetwork sigVal
  cases hg : getProp props CHANGE_NETWORK with
  | none => simp
  | some v =>
    simp only [hg] at h
    cases hv : v.as_str with
    | none => rw [hv] at h; simp at h
    | some s => simp [hv]

theorem applyState_eq (st : IWDPrivate) (props : List (String × Variant))
    (h : propOkAt props CHANGE_STATE = true) :
    applyState st props =
      some { st with state := (sigVal props CHANGE_STATE).getD st.state } := by
  unfold propOkAt at h
  unfold applyState sigVal
  cases hg : getProp props CHANGE_STATE with
  | none => simp
  | some v =>
    simp only [hg] at h
    cases hv : v.as_str with
    | none => rw [hv] at h; simp at h
    | some s => simp [hv]

theorem processSignal_eq (st : IWDPrivate) (props : List (String × Variant))
    (h : sigOk props = true) :
    processSignal st props =
      some { network_obj := (sigVal props CHANGE_NETWORK).getD st.network_obj,
             state := (sigVal props CHANGE_STATE).getD st.state } := by
  unfold sigOk at h
  have hn : propOkAt props CHANGE_NETWORK = true := by
    cases hb : propOkAt props CHANGE_NETWORK with
    | true => rfl
    | false => rw [hb] at h; simp at h
  have hs : propOkAt props CHANGE_STATE = true := by
    cases hb : propOkAt props CHANGE_STATE with
    | true => rfl
    | false => rw [hb] at h; simp at h
  have h1 := applyNetwork_eq st props hn
  have h2 := applyState_eq
    { st with network_obj := (sigVal props CHANGE_NETWORK).getD st.network_obj }
    props hs
  simp only [processSignal, h1, h2]

theorem lastDelivered_cons_getD (k : String) (props : List (String × Variant))
    (rest : List (List (String × Variant))) (d : String) :
    (lastDelivered k (props :: rest)).getD d =
      (lastDelivered k rest).getD ((sigVal props k).getD d) := by
  simp only [lastDelivered]
  cases h : lastDelivered k rest with
  | none => simp
  | some s => simp

theorem processSignals_fields (sigs : List (List (String × Variant))) :
    ∀ st : IWDPrivate, (∀ props ∈ sigs, sigOk props = true) →
      processSignals st sigs =
        some { network_obj :=
                 (lastDelivered CHANGE_NETWORK sigs).getD st.network_obj,
               state := (lastDelivered CHANGE_STATE sigs).getD st.state } := by
  induction sigs with
  | nil => intro st h; rfl
  | cons props rest ih =>
    intro st h
    have hp : sigOk props = true := h props (List.mem_cons_self _ _)
    have hrest : ∀ q ∈ rest, sigOk q = true := fun q hq =>
      h q (List.mem_cons_of_mem _ hq)
    have hrec := ih
      { network_obj := (sigVal props CHANGE_NETWORK).getD st.network_obj,
        state := (sigVal props CHANGE_STATE).getD st.state } hrest
    have hstep : processSignals st (props :: rest) =
        processSignals
          { network_obj := (sigVal props CHANGE_NETWORK).getD st.network_obj,
            state := (sigVal props CHANGE_STATE).getD st.state } rest := by
      simp only [processSignals, processSignal_eq st props hp]
    rw [hstep, hrec, lastDelivered_cons_getD, lastDelivered_cons_getD]

theorem applyNetwork_state (st : IWDPrivate) (props : List (String × Variant))
    (st1 : IWDPrivate) (h : applyNetwork st props = some st1) :
    st1.state = st.state := by
  unfold applyNetwork at h
  cases hg : getProp props CHANGE_NETWORK with
  | none => simp only [hg] at h; injection h with h; rw [← h]
  | some v =>
    simp only [hg] at h
    cases hv : v.as_str with
    | none => rw [hv] at h; exact Option.noConfusion h
    | some s => simp only [hv] at h; injection h with h; rw [← h]

theorem applyNetwork_noprop (st : IWDPrivate) (props : List (String × Variant))
    (h : getProp props CHANGE_NETWORK = none) :
    applyNetwork st props = some st := by
  unfold applyNetwork
  rw [h]

theorem applyState_obj (st : IWDPrivate) (props : List (String × Variant))
    (st1 : IWDPrivate) (h : applyState st props = some st1) :
    st1.network_obj = st.network_obj := by
  unfold applyState at h
  cases hg : getProp props CHANGE_STATE with
  | none => simp only [hg] at h; injection h with h; rw [← h]
  | some v =>
    simp only [hg] at h
    cases hv : v.as_str with
    | none => rw [hv] at h; exact Option.noConfusion h
    | some s => simp only [hv] at h; injection h with h; rw [← h]

theorem applyState_noprop (st : IWDPrivate) (props : List (String × Variant))
    (h : getProp props CHANGE_STATE = none) :
    applyState st props = some st := by
  unfold applyState
  rw [h]

end Iwd

namespace Iwd

/-- C1: for every sequence of property-change signals processed to completion by
the subscriber (every payload of interest string-typed), each field of the
shared IWDPrivate record afterwards equals the last value delivered for that
field, or its initial value when the field is never named; and a signal whose
change set does not name a field leaves that field unchanged. -/
theorem subscriber_last_writer_wins (init : IWDPrivate)
    (sigs : List (List (String × Variant)))
    (h : ∀ props ∈ sigs, sigOk props = true) :
    processSignals init sigs =
      some { network_obj :=
               (lastDelivered CHANGE_NETWORK sigs).getD init.network_obj,
             state := (lastDelivered CHANGE_STATE sigs).getD init.state } ∧
    (∀ props st st1, processSignal st props = some st1 →
       (getProp props CHANGE_STATE = none → st1.state = st.state) ∧
       (getProp props CHANGE_NETWORK = none →
          st1.network_obj = st.network_obj)) := by
  constructor
  · exact processSignals_fields sigs init h
  · intro props st st1 hp
    unfold processSignal at hp
    cases ha : applyNetwork st props with
    | none => rw [ha] at hp; exact Option.noConfusion hp
    | some st2 =>
      simp only [ha] at hp
      constructor
      · intro hnone
        rw [applyState_noprop st2 props hnone] at hp
        injection hp with hp
        rw [← hp]
        exact applyNetwork_state st props st2 ha
      · intro hnone
        rw [applyNetwork_noprop st props hnone] at ha
        injection ha with ha
        rw [applyState_obj st2 props st1 hp, ← ha]

/-- C1 witness: the fold evaluated on a concrete two-signal sequence. -/
theorem subscriber_last_writer_wins_witness :
    processSignals IWDPrivate.default
        [[(CHANGE_STATE, Variant.str "connected"),
          (CHANGE_NETWORK, Variant.str "/n1")],
         [(CHANGE_STATE, Variant.str "disconnecting")]] =
      some { network_obj :=
               (lastDelivered CHANGE_NETWORK
                 [[(CHANGE_STATE, Variant.str "connected"),
                   (CHANGE_NETWORK, Variant.str "/n1")],
                  [(CHANGE_STATE, Variant.str "disconnecting")]]).getD
                 IWDPrivate.default.network_obj,
             state :=
               (lastDelivered CHANGE_STATE
                 [[(CHANGE_STATE, Variant.str "connected"),
                   (CHANGE_NETWORK, Variant.str "/n1")],
                  [(CHANGE_STATE, Variant.str "disconnecting")]]).getD
                 IWDPrivate.default.state } :=
  (subscriber_last_writer_wins IWDPrivate.default
    [[(CHANGE_STATE, Variant.str "connected"),
      (CHANGE_NETWORK, Variant.str "/n1")],
     [(CHANGE_STATE, Variant.str "disconnecting")]] (by decide)).1

/-- C2: when the cached state is disconnected or disconnecting, IWD::update
shows the configured placeholder string and its result does not depend on the
name-resolution function (no resolution call is issued); when the state is
connected and the network object resolves, the text is the resolved name. -/
theorem update_text_disconnected_connected (cur : IWDPrivate) (ds : String)
    (g : String → Option String) :
    ((cur.state = STATE_DISCONNECTED ∨ cur.state = STATE_DISCONNECTING) →
       update cur ds g = some (ds, get_widget_state cur.state, none) ∧
       ∀ g2 : String → Option String, update cur ds g2 = update cur ds g) ∧
    (cur.state = STATE_CONNECTED →
       ∀ nm, g cur.network_obj = some nm →
         update cur ds g = some (nm, State.Good, none)) := by
  constructor
  · intro hst
    have hrt : ∀ g2 : String → Option String,
        renderText cur ds g2 = some ds := by
      intro g2
      unfold renderText
      rcases hst with h | h
      · rw [if_pos h]
      · rw [h, if_neg (by decide), if_pos rfl]
    constructor
    · unfold update
      rw [hrt g]
    · intro g2
      unfold update
      rw [hrt g, hrt g2]
  · intro hst nm hg
    have hrt : renderText cur ds g = some nm := by
      unfold renderText
      rw [hst, if_neg (by decide), if_neg (by decide)]
      exact hg
    have hws : get_widget_state cur.state = State.Good := by
      rw [hst]; decide
    unfold update
    rw [hrt, hws]

/-- C2 witness: both branches evaluated at concrete inputs. -/
theorem update_text_disconnected_connected_witness :
    update { network_obj := "/n1", state := "connected" } "off"
        (fun p => if p = "/n1" then some "HomeWiFi" else none) =
      some ("HomeWiFi", State.Good, none) ∧
    update { network_obj := "/stale", state := "disconnected" } "off"
        (fun _ => none) =
      some ("off",
        get_widget_state (IWDPrivate.state
          { network_obj := "/stale", state := "disconnected" }), none) :=
  ⟨(update_text_disconnected_connected
      { network_obj := "/n1", state := "connected" } "off"
      (fun p => if p = "/n1" then some "HomeWiFi" else none)).2
      rfl "HomeWiFi" rfl,
   ((update_text_disconnected_connected
      { network_obj := "/stale", state := "disconnected" } "off"
      (fun _ => none)).1 (Or.inl rfl)).1⟩

/-- C3: get_widget_state maps "disconnected" to Critical, "connected" to Good,
and every other string, "disconnecting" and unrecognized values included, to
Warning. -/
theorem get_widget_state_mapping :
    get_widget_state STATE_DISCONNECTED = State.Critical ∧
    get_widget_state STATE_CONNECTED = State.Good ∧
    ∀ s : String, s ≠ STATE_DISCONNECTED → s ≠ STATE_CONNECTED →
      get_widget_state s = State.Warning := by
  refine ⟨by decide, by decide, ?_⟩
  intro s h1 h2
  unfold get_widget_state
  rw [if_neg h1, if_neg h2]

/-- C3 witness: the catch-all arm evaluated at "disconnecting" and at an
unrecognized string. -/
theorem get_widget_state_mapping_witness :
    get_widget_state "disconnecting" = State.Warning ∧
    get_widget_state "roaming" = State.Warning :=
  ⟨get_widget_state_mapping.2.2 "disconnecting" (by decide) (by decide),
   get_widget_state_mapping.2.2 "roaming" (by decide) (by decide)⟩

end Iwd

namespace Iwd

/-- C4 counterexample: a single signal reaches the state "connecting" from the
initial record, "connecting" is not the connected state, and yet IWD::update in
that state dereferences network_obj: its output follows the resolver (two
resolvers give two different outputs).  Moreover a disconnect signal does not
clear network_obj.  So in a reachable non-connected state the reference is
neither cleared nor ignored by the renderer, against the claim. -/
theorem renderer_uses_ref_when_not_connected :
    processSignals IWDPrivate.default
        [[(CHANGE_STATE, Variant.str "connecting"),
          (CHANGE_NETWORK, Variant.str "/n1")]] =
      some { network_obj := "/n1", state := "connecting" } ∧
    "connecting" ≠ STATE_CONNECTED ∧
    update { network_obj := "/n1", state := "connecting" } "off"
        (fun _ => some "A") = some ("A", State.Warning, none) ∧
    update { network_obj := "/n1", state := "connecting" } "off"
        (fun _ => some "B") = some ("B", State.Warning, none) ∧
    processSignal { network_obj := "/n1", state := "connected" }
        [(CHANGE_STATE, Variant.str "disconnected")] =
      some { network_obj := "/n1", state := "disconnected" } := by
  decide

/-- C4 amended: network_obj is ignored by the renderer exactly in the
disconnected and disconnecting states, where the update result is independent
of the name-resolution function; it is never cleared, and in any other
non-connected state the renderer dereferences it. -/
theorem update_ignores_ref_when_placeholder (cur : IWDPrivate) (ds : String)
    (g1 g2 : String → Option String)
    (h : cur.state = STATE_DISCONNECTED ∨ cur.state = STATE_DISCONNECTING) :
    update cur ds g1 = update cur ds g2 := by
  have hrt : ∀ g : String → Option String, renderText cur ds g = some ds := by
    intro g
    unfold renderText
    rcases h with h | h
    · rw [if_pos h]
    · rw [h, if_neg (by decide), if_pos rfl]
  unfold update
  rw [hrt g1, hrt g2]

/-- C4 amended witness: resolver-independence evaluated in the disconnected
state. -/
theorem update_ignores_ref_when_placeholder_witness :
    update { network_obj := "/stale", state := "disconnected" } "off"
        (fun _ => some "X") =
      update { network_obj := "/stale", state := "disconnected" } "off"
        (fun _ => none) :=
  update_ignores_ref_when_placeholder _ "off" _ _ (Or.inl rfl)

/-- A failed propOkAt check exhibits the offending entry: the key is present
and its value has no string representation. -/
theorem propOkAt_false (props : List (String × Variant)) (k : String)
    (h : propOkAt props k = false) :
    ∃ v, getProp props k = some v ∧ v.as_str = none := by
  unfold propOkAt at h
  cases hg : getProp props k with
  | none => simp only [hg] at h; exact Bool.noConfusion h
  | some v =>
    simp only [hg] at h
    refine ⟨v, rfl, ?_⟩
    cases hv : v.as_str with
    | none => rfl
    | some s => rw [hv] at h; simp at h

/-- C5 counterexample: a signal whose ConnectedNetwork payload has a
non-string type, and likewise one whose State payload has a non-string type,
make processItem return none, which models the panic of as_str().unwrap()
(mod.rs 108 and 111) killing the subscriber thread: the field update is not
skipped and the loop does not continue, against the claim. -/
theorem subscriber_panics_on_bad_payload :
    processItem { network_obj := "/old", state := "connected" }
      (BusItem.signal (some [(CHANGE_NETWORK, Variant.other)])) = none ∧
    processItem { network_obj := "/old", state := "connected" }
      (BusItem.signal (some [(CHANGE_STATE, Variant.other)])) = none := by
  decide

/-- C5 amended: a payload of unexpected value type for any property of
interest, State or ConnectedNetwork (the unwraps on mod.rs 108 and 111),
makes the subscriber panic, terminating the loop; the deserialization error
is fatal rather than skipped.  sigOk is false exactly when some property of
interest is present with a non-string value. -/
theorem processItem_bad_payload_panics (st : IWDPrivate)
    (props : List (String × Variant)) (h : sigOk props = false) :
    processItem st (BusItem.signal (some props)) = none := by
  unfold sigOk at h
  cases hn : propOkAt props CHANGE_NETWORK with
  | false =>
    obtain ⟨v, hg, hv⟩ := propOkAt_false props CHANGE_NETWORK hn
    simp only [processItem, processSignal, applyNetwork, hg, hv]
  | true =>
    rw [hn, Bool.true_and] at h
    obtain ⟨v, hg, hv⟩ := propOkAt_false props CHANGE_STATE h
    have h1 := applyNetwork_eq st props hn
    simp only [processItem, processSignal, h1, applyState, hg, hv]

/-- C5 amended witness: the panic evaluated at concrete bad payloads, one for
each property of interest. -/
theorem processItem_bad_payload_panics_witness :
    processItem { network_obj := "", state := "connected" }
      (BusItem.signal (some [(CHANGE_STATE, Variant.other)])) = none ∧
    processItem { network_obj := "", state := "x" }
      (BusItem.signal (some [(CHANGE_NETWORK, Variant.other)])) = none :=
  ⟨processItem_bad_payload_panics _ _ (by decide),
   processItem_bad_payload_panics _ _ (by decide)⟩

/-- C6 counterexample: a parsed property-change signal naming neither State
nor ConnectedNetwork leaves the record unchanged but still sends one refresh
Task to the scheduler, against the claim that such a signal is discarded with
no notification. -/
theorem unrelated_signal_still_notifies :
    processItem IWDPrivate.default
      (BusItem.signal (some [("Scanning", Variant.str "true")])) =
      some (IWDPrivate.default, 1) := by
  decide

/-- C6 amended: a parsed property-change signal naming neither property of
interest leaves the record unchanged but still emits exactly one refresh
notification; every parsed property-change signal processed without panic
emits exactly one notification; non-signal items and signals that do not parse
as a properties-changed message emit none and write nothing. -/
theorem processItem_notification_rules (st : IWDPrivate)
    (props : List (String × Variant))
    (hn : getProp props CHANGE_NETWORK = none)
    (hs : getProp props CHANGE_STATE = none) :
    processItem st (BusItem.signal (some props)) = some (st, 1) ∧
    (∀ props2 st2 n,
       processItem st (BusItem.signal (some props2)) = some (st2, n) →
         n = 1) ∧
    processItem st BusItem.nonSignal = some (st, 0) ∧
    processItem st (BusItem.signal none) = some (st, 0) := by
  refine ⟨?_, ?_, rfl, rfl⟩
  · simp only [processItem, processSignal, applyNetwork, applyState, hn, hs]
  · intro props2 st2 n hp
    simp only [processItem] at hp
    cases hps : processSignal st props2 with
    | none => rw [hps] at hp; exact Option.noConfusion hp
    | some s =>
      simp only [hps] at hp
      injection hp with hp
      injection hp with hpa hpb
      exact hpb.symm

/-- C6 amended witness: the notification count evaluated on a concrete
unrelated signal. -/
theorem processItem_notification_rules_witness :
    processItem { network_obj := "a", state := "b" }
      (BusItem.signal (some [("Scanning", Variant.str "x")])) =
      some ({ network_obj := "a", state := "b" }, 1) :=
  (processItem_notification_rules _ _ (by decide) (by decide)).1

/-- C7 counterexample: the record built at construction by Default::default()
has state equal to the empty string, not the disconnected state string,
against the claim. -/
theorem initial_linkstate_not_disconnected :
    IWDPrivate.default.state ≠ STATE_DISCONNECTED := by
  decide

/-- C7 amended: at construction the shared record is initialized with both
fields the empty string; the empty state is an unrecognized value, rendered
with Warning severity, and is neither the connected nor the disconnected
state.  It is thereafter mutated only by the subscriber, which the embedding
reflects by making the renderer and click handler pure readers. -/
theorem initial_linkstate_empty :
    IWDPrivate.default = { network_obj := "", state := "" } ∧
    get_widget_state IWDPrivate.default.state = State.Warning ∧
    IWDPrivate.default.state ≠ STATE_CONNECTED := by
  decide

/-- C8 counterexample: in the connected state the render trace is acquire,
bus call, release: the name-resolution bus call happens while the LinkState
lock is held, against the claim that the lock is released before any bus
call.  The MutexGuard bound on line 147 lives to the end of update. -/
theorem lock_held_across_name_resolution :
    updateTrace { network_obj := "/n1", state := "connected" } =
      [RenderEvent.lockAcquire, RenderEvent.busCall "/n1",
       RenderEvent.lockRelease] ∧
    lockHeldAcrossBusCall
      (updateTrace { network_obj := "/n1", state := "connected" }) false =
      true := by
  decide

/-- C8 amended: IWD::update holds the LinkState lock for its whole body;
whenever the cached state is neither disconnected nor disconnecting, the
name-resolution bus call is issued while the lock is held, and the lock is
released only at the end. -/
theorem updateTrace_lock_discipline (cur : IWDPrivate)
    (h1 : cur.state ≠ STATE_DISCONNECTED)
    (h2 : cur.state ≠ STATE_DISCONNECTING) :
    updateTrace cur =
      [RenderEvent.lockAcquire, RenderEvent.busCall cur.network_obj,
       RenderEvent.lockRelease] ∧
    lockHeldAcrossBusCall (updateTrace cur) false = true := by
  have ht : updateTrace cur =
      [RenderEvent.lockAcquire, RenderEvent.busCall cur.network_obj,
       RenderEvent.lockRelease] := by
    unfold updateTrace
    rw [if_neg h1, if_neg h2]
    rfl
  refine ⟨ht, ?_⟩
  rw [ht]
  rfl

/-- C8 amended witness: the trace evaluated in a concrete non-placeholder
state. -/
theorem updateTrace_lock_discipline_witness :
    updateTrace { network_obj := "/n2", state := "connecting" } =
      [RenderEvent.lockAcquire, RenderEvent.busCall "/n2",
       RenderEvent.lockRelease] ∧
    lockHeldAcrossBusCall
      (updateTrace { network_obj := "/n2", state := "connecting" }) false =
      true :=
  updateTrace_lock_discipline _ (by decide) (by decide)

/-- C9 counterexample: with no disconnect button configured, an event named
"disconnect" still makes IWD::click issue the disconnect command to the
watched device, against the claim that no command is issued in that case. -/
theorem click_ignores_affordance_config :
    click { device_id := "/dev/wlan0", disconnect := false }
      (some "disconnect") = ["/dev/wlan0"] := by
  decide

/-- C9 amended: the click handler issues the disconnect command exactly when
the event's name is "disconnect", regardless of whether the disconnect
affordance is configured; any other or absent name issues nothing. -/
theorem click_issues_iff_name_matches (blk : IWDBlock) (ev : Option String) :
    click blk ev =
      if ev = some "disconnect" then [blk.device_id] else [] := by
  cases ev with
  | none => rfl
  | some name =>
    simp only [click]
    by_cases h : name = "disconnect"
    · rw [if_pos h, if_pos (by rw [h])]
    · rw [if_neg h, if_neg (fun hc => h (Option.some.inj hc))]

/-- C10: whenever IWD::update completes normally (does not panic), the value
it returns to the scheduler carries no self-scheduled refresh interval: the
Rust function always returns Ok(None). -/
theorem update_no_refresh_interval (cur : IWDPrivate) (ds : String)
    (g : String → Option String) (out : String × State × Option Nat)
    (h : update cur ds g = some out) : out.2.2 = none := by
  unfold update at h
  cases hr : renderText cur ds g with
  | none => rw [hr] at h; exact Option.noConfusion h
  | some t =>
    simp only [hr] at h
    injection h with h
    rw [← h]

/-- C10 witness: the returned interval evaluated at a concrete render. -/
theorem update_no_refresh_interval_witness :
    (("off", State.Critical, (none : Option Nat))).2.2 = none :=
  update_no_refresh_interval { network_obj := "", state := "disconnected" }
    "off" (fun _ => none) ("off", State.Critical, none) (by decide)

end Iwd
